import Mathlib

/-!
Shallow embedding of `simple_collada_importer.py` (the COLLADA triangle-mesh
decoder of this repository) and proofs about its behaviour.

The embedding models the Python functions `parse_source_float_array` and
`build_mesh_from_geometry` over an XML-free data model: each relevant XML
element is represented by a structure carrying exactly the attributes and
child text the code reads.  Python machine behaviour is modelled explicitly:

* `pyGet` implements Python list indexing, including negative-index wraparound
  and `IndexError` for out-of-range access;
* fallible code runs in `Except String`; an `.error` value models an uncaught
  Python exception propagating out of the importer;
* Python `dict`s are association lists with in-place update (insertion order
  preserved, which is what `dict.items()` iterates in);
* numeric text is parsed by `parseFloat?` / `parseInt?`, models of Python
  `float()` / `int()` on the plain decimal forms (sign, digits, fraction,
  exponent; the exotic forms `inf`, `nan`, hex and underscores are outside
  the model, as are locale forms — the proofs never rely on them).

Values of `float_array` sources are modelled as rationals (`ℚ`).
-/

/-! ## Python-machine primitives -/

/-- Python list indexing `l[i]`: negative indices wrap from the end,
anything else out of range is an `IndexError` (`none`). -/
def pyGet (l : List α) (i : Int) : Option α :=
  let j : Int := if i < 0 then i + l.length else i
  if 0 ≤ j ∧ j < l.length then l.get? j.toNat else none

/-- `pyGet` in the `Except` monad: a failed access is an uncaught
`IndexError`. -/
def pyGetE (l : List α) (i : Int) : Except String α :=
  match pyGet l i with
  | some x => .ok x
  | none => .error "IndexError"

/-- Python `str.strip().split()`: split on whitespace runs, no empty tokens.
Accumulator-based so that it is structurally recursive. -/
def pyTokensAux : List Char → List Char → List String
  | [], acc => if acc.isEmpty then [] else [String.mk acc.reverse]
  | c :: r, acc =>
    if c.isWhitespace then
      if acc.isEmpty then pyTokensAux r [] else String.mk acc.reverse :: pyTokensAux r []
    else pyTokensAux r (c :: acc)

/-- Python `s.strip().split()`. -/
def pySplit (s : String) : List String := pyTokensAux s.data []

/-- Python `s[1:]`: drop the first character. -/
def pyTail (s : String) : String := String.mk (s.data.drop 1)

/-- Truthiness of an optional list (Python `if x:` on a value that is either
`None` or a list): `None` and the empty list are falsy. -/
def truthy : Option (List α) → Bool
  | some l => !l.isEmpty
  | none => false

/-- Value of a nonempty digit string. -/
def digitsToNat (l : List Char) : ℕ :=
  l.foldl (fun a c => a * 10 + (c.toNat - 48)) 0

/-- Leading optional sign: returns (negative?, rest). -/
def parseSign : List Char → Bool × List Char
  | '-' :: r => (true, r)
  | '+' :: r => (false, r)
  | l => (false, l)

/-- `10 ^ n` in `ℚ`, kept typeclass-free so that concrete runs reduce fast. -/
def pow10 : ℕ → ℚ
  | 0 => 1
  | n + 1 => 10 * pow10 n

/-- Mantissa of a float literal: `digits`, `digits.`, `.digits` or
`digits.digits` (at least one digit in total). -/
def parseMantissa (l : List Char) : Option ℚ :=
  let ip := l.takeWhile Char.isDigit
  let r := l.dropWhile Char.isDigit
  match r with
  | [] => if ip.isEmpty then none else some (digitsToNat ip : ℚ)
  | '.' :: r2 =>
    if r2.all Char.isDigit && !(ip.isEmpty && r2.isEmpty) then
      some ((digitsToNat ip : ℚ) + (digitsToNat r2 : ℚ) / pow10 r2.length)
    else none
  | _ => none

/-- Exponent part of a float literal: optional sign and digits. -/
def parseExp (l : List Char) : Option Int :=
  let p := parseSign l
  if !p.2.isEmpty && p.2.all Char.isDigit then
    some (if p.1 then -(digitsToNat p.2 : Int) else (digitsToNat p.2 : Int))
  else none

/-- Split a char list at the first `e`/`E`, if any. -/
def splitAtExp : List Char → List Char × Option (List Char)
  | [] => ([], none)
  | c :: r =>
    if c = 'e' ∨ c = 'E' then ([], some r)
    else
      let p := splitAtExp r
      (c :: p.1, p.2)

/-- Model of Python `float(token)` on plain decimal forms. -/
def parseFloat? (s : String) : Option ℚ :=
  let sp := parseSign s.data
  let me := splitAtExp sp.2
  match parseMantissa me.1 with
  | none => none
  | some m =>
    match me.2 with
    | none => some (if sp.1 then -m else m)
    | some el =>
      match parseExp el with
      | none => none
      | some k =>
        let v := if 0 ≤ k then m * pow10 k.toNat else m / pow10 (-k).toNat
        some (if sp.1 then -v else v)

/-- Model of Python `int(token)` on plain decimal forms. -/
def parseInt? (s : String) : Option Int :=
  let p := parseSign s.data
  if !p.2.isEmpty && p.2.all Char.isDigit then
    some (if p.1 then -(digitsToNat p.2 : Int) else (digitsToNat p.2 : Int))
  else none

/-- `parseInt?` in the `Except` monad: failure is an uncaught `ValueError`
(the importer never wraps these `int()` calls in a `try`). -/
def parseIntE (s : String) : Except String Int :=
  match parseInt? s with
  | some n => .ok n
  | none => .error "ValueError: invalid literal for int()"

/-- All-or-nothing token mapping: the Python list comprehension
`[f(x) for x in toks]` inside a `try` that catches any failure. -/
def mapMOpt (f : α → Option β) : List α → Option (List β)
  | [] => some []
  | a :: r =>
    match f a, mapMOpt f r with
    | some b, some rs => some (b :: rs)
    | _, _ => none

/-- Python `dict` insertion `d[k] = v`: in-place update when the key exists
(keeping its position in iteration order), append otherwise. -/
def dictInsert [DecidableEq α] (k : α) (v : β) : List (α × β) → List (α × β)
  | [] => [(k, v)]
  | (k', v') :: rest =>
    if k' = k then (k, v) :: rest else (k', v') :: dictInsert k v rest

/-- Python `d.get(k)`. -/
def dictGet? [DecidableEq α] (k : α) (d : List (α × β)) : Option β :=
  (d.find? (fun e => e.1 = k)).map (·.2)

/-! ## Data model: the XML elements the importer reads -/

/-- The `<accessor>` element of a source (only its `stride` attribute is
read). -/
structure XAccessor where
  stride : Option String
deriving DecidableEq

/-- A `<source>` element.  `float_array = none` models a missing
`<float_array>` child; `some none` models one whose text is `None`. -/
structure XSource where
  id : Option String
  float_array : Option (Option String)
  accessor : Option XAccessor
deriving DecidableEq

/-- An `<input>` element (used both under `<vertices>` and under
`<triangles>`); each field is the raw attribute. -/
structure XInput where
  semantic : Option String
  source : Option String
  offset : Option String
  set_idx : Option String
deriving DecidableEq

/-- A `<vertices>` element. -/
structure XVertices where
  id : Option String
  inputs : List XInput
deriving DecidableEq

/-- A `<triangles>` element.  `p_text = none` models a missing `<p>` child or
one whose text is `None` (the code treats both alike). -/
structure XTriangles where
  count : Option String
  material : Option String
  inputs : List XInput
  p_text : Option String
deriving DecidableEq

/-- A `<mesh>` element. -/
structure XMesh where
  sources : List XSource
  vertices : List XVertices
  triangles : List XTriangles
deriving DecidableEq

/-- A `<geometry>` element (`mesh = none` models a missing `<mesh>` child). -/
structure XGeometry where
  id : Option String
  name : Option String
  mesh : Option XMesh
deriving DecidableEq

/-! ## `parse_source_float_array` -/

/-- The chunking loop `for i in range(0, len(floats), stride)` for a positive
stride, with fuel (`fuel = len(floats)` suffices, each pass consumes
`stride ≥ 1` elements): collect full `stride`-width chunks, stop at the first
short one. -/
def chunkAux (s : ℕ) : ℕ → List ℚ → List (List ℚ)
  | 0, _ => []
  | fuel + 1, l => if l.length < s then [] else l.take s :: chunkAux s fuel (l.drop s)

/-- Full chunking pass over the parsed floats. -/
def chunkPos (s : ℕ) (l : List ℚ) : List (List ℚ) := chunkAux s l.length l

/-- `stride = int(accessor.attrib.get("stride", "3")) if accessor is not None
else 3` — the `int()` call is outside the `try`, so a bad stride attribute is
an uncaught `ValueError`. -/
def strideResult (src : XSource) : Except String Int :=
  match src.accessor with
  | none => .ok 3
  | some acc =>
    match parseInt? (acc.stride.getD "3") with
    | some n => .ok n
    | none => .error "ValueError: invalid literal for int()"

/-- `parse_source_float_array(source_elem, ns)`.  A missing `<float_array>`
or text, or any token `float()` rejects, yields `[]` (the `ValueError` is
caught); a bad stride attribute raises, and `range(0, n, 0)` raises. -/
def parse_source_float_array (src : XSource) : Except String (List (List ℚ)) :=
  match src.float_array with
  | none => .ok []
  | some none => .ok []
  | some (some txt) =>
    match mapMOpt parseFloat? (pySplit txt) with
    | none => .ok []
    | some floats =>
      match strideResult src with
      | .error e => .error e
      | .ok s =>
        if s = 0 then .error "ValueError: range() arg 3 must not be zero"
        else if s < 0 then .ok []
        else .ok (chunkPos s.toNat floats)

/-! ## `build_mesh_from_geometry`: dictionaries built before the block loop -/

/-- Type of a source table: the decoded tuples of one `<source>`. -/
abbrev SrcTable := List (List ℚ)

/-- The `sources` dict: `id → parse_source_float_array(src)` (ids that are
`None` or `""` are skipped; the parse may raise). -/
def buildSources (l : List XSource) : Except String (List (String × SrcTable)) :=
  l.foldlM
    (fun d src =>
      match src.id with
      | none => pure d
      | some sid =>
        if sid = "" then pure d
        else do
          let v ← parse_source_float_array src
          pure (dictInsert sid v d))
    []

/-- The `vertices_map` dict: pool id → POSITION input's source id with the
leading `#` stripped (`attrib.get("source", "")[1:]`); every POSITION input
writes, so the last one wins. -/
def buildVerticesMap (l : List XVertices) : List (String × String) :=
  l.foldl
    (fun d verts =>
      match verts.id with
      | none => d
      | some vid =>
        if vid = "" then d
        else
          verts.inputs.foldl
            (fun d2 inp =>
              if inp.semantic = some "POSITION" then
                dictInsert vid (pyTail (inp.source.getD "")) d2
              else d2)
            d)
    []

/-! ## One `<triangles>` block -/

/-- One entry of the `input_by_offset` dict:
`offset ↦ (semantic, source-id-minus-hash, set)`. -/
abbrev IboEntry := Int × (Option String × String × Option String)

/-- Semantic of an `input_by_offset` entry. -/
def eSem (e : IboEntry) : Option String := e.2.1

/-- Source id of an `input_by_offset` entry. -/
def eSrc (e : IboEntry) : String := e.2.2.1

/-- Set attribute of an `input_by_offset` entry. -/
def eSet (e : IboEntry) : Option String := e.2.2.2

/-- Offset key of an `input_by_offset` entry. -/
def eOff (e : IboEntry) : Int := e.1

/-- The `input_by_offset`/`max_offset` construction loop:
`int()` on a bad offset attribute is an uncaught `ValueError`. -/
def mkInputByOffset (inputs : List XInput) :
    Except String (List IboEntry × Int) :=
  inputs.foldlM
    (fun acc inp => do
      let off ← parseIntE (inp.offset.getD "0")
      pure (dictInsert off (inp.semantic, pyTail (inp.source.getD ""), inp.set_idx) acc.1,
            max acc.2 off))
    ([], 0)

/-- The VERTEX/POSITION resolution of one block (`vertex_offset`,
`pos_source_id`, `positions` and their `return None` checks): `none` means
the geometry build returns `None` here.  Returns the vertex offset together
with the nonempty position table. -/
def resolveVertexBlock (srcs : List (String × SrcTable))
    (vmap : List (String × String)) (ibo : List IboEntry) :
    Option (Int × SrcTable) :=
  match ibo.find? (fun e => eSem e = some "VERTEX") with
  | none => none
  | some e =>
    match dictGet? (eSrc e) vmap with
    | none => none
    | some pid =>
      match dictGet? pid srcs with
      | none => none
      | some tbl => if tbl.isEmpty then none else some (eOff e, tbl)

/-- The optional NORMAL/COLOR/TEXCOORD bindings of a block. -/
structure OptSem where
  normal_offset : Option Int := none
  normal_source : Option SrcTable := none
  color_offset : Option Int := none
  color_source : Option SrcTable := none
  uv_offset : Option Int := none
  uv_source : Option SrcTable := none
deriving DecidableEq

/-- One pass of the optional-semantic resolution loop (the `if/elif` chain
over `input_by_offset.items()`): NORMAL and COLOR overwrite unconditionally,
TEXCOORD only when nothing is held yet (`uv_source is None`) or the binding
has `set="0"`. -/
def resolveOptStep (srcs : List (String × SrcTable)) (s : OptSem) (e : IboEntry) : OptSem :=
  if eSem e = some "NORMAL" then
    { s with normal_offset := some (eOff e), normal_source := dictGet? (eSrc e) srcs }
  else if eSem e = some "COLOR" then
    { s with color_offset := some (eOff e), color_source := dictGet? (eSrc e) srcs }
  else if eSem e = some "TEXCOORD" then
    if s.uv_source = none ∨ eSet e = some "0" then
      { s with uv_offset := some (eOff e), uv_source := dictGet? (eSrc e) srcs }
    else s
  else s

/-- The whole optional-semantic resolution loop. -/
def resolveOptional (srcs : List (String × SrcTable)) (ibo : List IboEntry) : OptSem :=
  ibo.foldl (resolveOptStep srcs) {}

/-- Per-corner normal: in-range row, else the `(0, 0, 1)` fallback. -/
def cornerNormal (ns : SrcTable) (ni : Int) : List ℚ :=
  if 0 ≤ ni ∧ ni < ns.length then ns.getD ni.toNat [] else [0, 0, 1]

/-- Per-corner color: in-range 4-wide row as is, 3-wide promoted to alpha 1,
any other width and any out-of-range row is opaque white `(1, 1, 1, 1)`. -/
def cornerColor (cs : SrcTable) (ci : Int) : ℚ × ℚ × ℚ × ℚ :=
  if 0 ≤ ci ∧ ci < cs.length then
    let c := cs.getD ci.toNat []
    if c.length = 4 then (c.getD 0 0, c.getD 1 0, c.getD 2 0, c.getD 3 0)
    else if c.length = 3 then (c.getD 0 0, c.getD 1 0, c.getD 2 0, 1)
    else (1, 1, 1, 1)
  else (1, 1, 1, 1)

/-- Per-corner uv: in-range row read as `(uv[0], uv[1])` (an `IndexError` if
the row is narrower than 2), else the `(0, 0)` fallback. -/
def cornerUV (us : SrcTable) (ti : Int) : Except String (ℚ × ℚ) :=
  if 0 ≤ ti ∧ ti < us.length then do
    let uv := us.getD ti.toNat []
    let u0 ← pyGetE uv 0
    let u1 ← pyGetE uv 1
    pure (u0, u1)
  else pure (0, 0)

/-- Context of the per-triangle loop of one block. -/
structure BlockCtx where
  num_inputs : Int
  vertex_offset : Int
  mat : Option String
  os : OptSem
deriving DecidableEq

/-- The per-triangle data built corner by corner (`tri_vertices`, `tri_uv`,
`tri_col`, `tri_norm`). -/
structure TriData where
  verts : List Int
  uv : List (ℚ × ℚ)
  col : List (ℚ × ℚ × ℚ × ℚ)
  norm : List (List ℚ)
deriving DecidableEq

/-- Normal section of one corner: active when the block has a NORMAL binding
whose table is truthy; reads the raw stream at `b + normal_offset`. -/
def stepNormal (ctx : BlockCtx) (raw : List Int) (b : Int) (td : TriData) :
    Except String TriData :=
  match ctx.os.normal_offset, ctx.os.normal_source with
  | some noff, some ns =>
    if ns.isEmpty then pure td
    else do
      let ni ← pyGetE raw (b + noff)
      pure { td with norm := td.norm ++ [cornerNormal ns ni] }
  | _, _ => pure td

/-- Color section of one corner. -/
def stepColor (ctx : BlockCtx) (raw : List Int) (b : Int) (td : TriData) :
    Except String TriData :=
  match ctx.os.color_offset, ctx.os.color_source with
  | some coff, some cs =>
    if cs.isEmpty then pure td
    else do
      let ci ← pyGetE raw (b + coff)
      pure { td with col := td.col ++ [cornerColor cs ci] }
  | _, _ => pure td

/-- UV section of one corner. -/
def stepUV (ctx : BlockCtx) (raw : List Int) (b : Int) (td : TriData) :
    Except String TriData :=
  match ctx.os.uv_offset, ctx.os.uv_source with
  | some uoff, some us =>
    if us.isEmpty then pure td
    else do
      let ti ← pyGetE raw (b + uoff)
      let uvv ← cornerUV us ti
      pure { td with uv := td.uv ++ [uvv] }
  | _, _ => pure td

/-- One corner (`for v in range(3)` body): the VERTEX slot is read with no
range check against the position table and appended as is; then the three
optional sections run. -/
def corner (ctx : BlockCtx) (raw : List Int) (base : Int) (td : TriData) (v : ℕ) :
    Except String TriData := do
  let b := base + (v : Int) * ctx.num_inputs
  let vi ← pyGetE raw (b + ctx.vertex_offset)
  let td1 ← stepNormal ctx raw b { td with verts := td.verts ++ [vi] }
  let td2 ← stepColor ctx raw b td1
  stepUV ctx raw b td2

/-- One triangle (`for v in range(3)`), starting from empty per-triangle
accumulators. -/
def decodeTriangle (ctx : BlockCtx) (raw : List Int) (i_tri : ℕ) :
    Except String TriData :=
  [0, 1, 2].foldlM (corner ctx raw ((i_tri : Int) * 3 * ctx.num_inputs)) ⟨[], [], [], []⟩

/-- The geometry-wide accumulators that grow per emitted face. -/
structure TState where
  faces : List (List Int)
  mats : List (Option String)
  uvs : List (ℚ × ℚ)
  cols : List (ℚ × ℚ × ℚ × ℚ)
  norms : List (List ℚ)
deriving DecidableEq

/-- Body of `for i_tri in range(count)`: decode one triangle, drop it when
its three VERTEX rows are not pairwise distinct (`len(set(...)) < 3`),
otherwise append face, material tag and corner attributes together. -/
def triStep (ctx : BlockCtx) (raw : List Int) (st : TState) (i_tri : ℕ) :
    Except String TState := do
  let td ← decodeTriangle ctx raw i_tri
  if td.verts.dedup.length < 3 then pure st
  else
    pure
      { faces := st.faces ++ [td.verts]
        mats := st.mats ++ [ctx.mat]
        uvs := st.uvs ++ td.uv
        cols := st.cols ++ td.col
        norms := st.norms ++ td.norm }

/-- The accumulator threaded through the `<triangles>` loop: the `positions`
variable (reassigned by every block that reaches position resolution) plus
the growing face/attribute lists. -/
structure Accum where
  positions : Option SrcTable
  ts : TState
deriving DecidableEq

/-- Initial accumulator state of one geometry. -/
def initAccum : Accum := ⟨none, ⟨[], [], [], [], []⟩⟩

/-- `raw_idx = [int(x) for x in p_elem.text.strip().split()]`: a token
`int()` rejects is an uncaught `ValueError`. -/
def parseRawIdx (ptxt : String) : Except String (List Int) :=
  match mapMOpt parseInt? (pySplit ptxt) with
  | some l => .ok l
  | none => .error "ValueError: invalid literal for int()"

/-- One `<triangles>` block.  `.ok none` models `return None` (the whole
geometry is abandoned), `.ok (some _)` the updated accumulators, `.error` an
uncaught exception.  A block with no `<p>` or empty `<p>` text is skipped
(`continue`) — but `int(count)` has already run by then. -/
def processTriBlock (srcs : List (String × SrcTable)) (vmap : List (String × String))
    (st : Accum) (tri : XTriangles) : Except String (Option Accum) := do
  let count ← parseIntE (tri.count.getD "0")
  match tri.p_text with
  | none => pure (some st)
  | some ptxt =>
    if ptxt = "" then pure (some st)
    else do
      let im ← mkInputByOffset tri.inputs
      let numInputs := im.2 + 1
      match resolveVertexBlock srcs vmap im.1 with
      | none => pure none
      | some vp => do
        let os := resolveOptional srcs im.1
        let raw ← parseRawIdx ptxt
        let ts2 ←
          (List.range count.toNat).foldlM
            (triStep ⟨numInputs, vp.1, tri.material, os⟩ raw) st.ts
        pure (some ⟨some vp.2, ts2⟩)

/-- The `for tri in mesh_elem.findall(...)` loop with the early `return None`
escape. -/
def processBlocks (srcs : List (String × SrcTable)) (vmap : List (String × String)) :
    List XTriangles → Accum → Except String (Option Accum)
  | [], st => .ok (some st)
  | tri :: rest, st => do
    match ← processTriBlock srcs vmap st tri with
    | none => pure none
    | some st2 => processBlocks srcs vmap rest st2

/-- Python `a or b or "DAE_Mesh"` over optional strings (`None` and `""` are
falsy). -/
def firstTruthy (l : List (Option String)) (dflt : String) : String :=
  match l with
  | [] => dflt
  | some s :: rest => if s = "" then firstTruthy rest dflt else s
  | none :: rest => firstTruthy rest dflt

/-- What the importer hands to the sink for one geometry.  `mesh.loops` after
`from_pydata` with triangle faces has `3 × |faces|` entries, so the three
corner-attribute writes are gated on that length; a gate failure leaves the
attribute unwritten (`none`). -/
structure MeshOut where
  name : String
  positions : SrcTable
  faces : List (List Int)
  face_mat_ids : List (Option String)
  uvsWritten : Option (List (ℚ × ℚ))
  colsWritten : Option (List (ℚ × ℚ × ℚ × ℚ))
  normsWritten : Option (List (List ℚ))
deriving DecidableEq

/-- `build_mesh_from_geometry(geom_elem, ns, ...)`: `.ok none` models
`return None` (geometry skipped), `.ok (some m)` a mesh handed to the sink,
`.error` an uncaught exception aborting the whole import. -/
def build_mesh_from_geometry (geom : XGeometry) : Except String (Option MeshOut) :=
  match geom.mesh with
  | none => .ok none
  | some mesh => do
    let srcs ← buildSources mesh.sources
    let vmap := buildVerticesMap mesh.vertices
    match ← processBlocks srcs vmap mesh.triangles initAccum with
    | none => pure none
    | some acc =>
      match acc.positions with
      | none => pure none
      | some pos =>
        if pos.isEmpty || acc.ts.faces.isEmpty then pure none
        else
          pure (some
            { name := firstTruthy [geom.name, geom.id] "DAE_Mesh"
              positions := pos
              faces := acc.ts.faces
              face_mat_ids := acc.ts.mats
              uvsWritten :=
                if !acc.ts.uvs.isEmpty && acc.ts.uvs.length = 3 * acc.ts.faces.length then
                  some acc.ts.uvs
                else none
              colsWritten :=
                if !acc.ts.cols.isEmpty && acc.ts.cols.length = 3 * acc.ts.faces.length then
                  some acc.ts.cols
                else none
              normsWritten :=
                if !acc.ts.norms.isEmpty && acc.ts.norms.length = 3 * acc.ts.faces.length then
                  some acc.ts.norms
                else none })

/-! ## Shape lemmas for the per-corner steps -/

/-- The block has an active NORMAL channel: offset bound and source truthy. -/
def normalActive (ctx : BlockCtx) : Bool :=
  ctx.os.normal_offset.isSome && truthy ctx.os.normal_source

/-- The block has an active COLOR channel. -/
def colorActive (ctx : BlockCtx) : Bool :=
  ctx.os.color_offset.isSome && truthy ctx.os.color_source

/-- The block has an active TEXCOORD channel. -/
def uvActive (ctx : BlockCtx) : Bool :=
  ctx.os.uv_offset.isSome && truthy ctx.os.uv_source

/-- The last binding in the dict with a given semantic. -/
def lastWithSem (sem : String) (l : List IboEntry) : Option IboEntry :=
  (l.filter fun e => eSem e = some sem).getLast?

/-! ## Concrete documents used as counterexamples and witnesses -/

/-- A position source with three rows `(0,0,0), (1,0,0), (0,1,0)`. -/
def srcPosA : XSource := ⟨some "pa", some (some "0 0 0 1 0 0 0 1 0"), none⟩

/-- A second, different position source with rows `(5,5,5), (6,5,5), (5,6,5)`. -/
def srcPosB : XSource := ⟨some "pb", some (some "5 5 5 6 5 5 5 6 5"), none⟩

/-- A uv source with one row `(0,0)` (stride 2). -/
def srcUV : XSource := ⟨some "uvs", some (some "0 0"), some ⟨some "2"⟩⟩

/-- `<vertices id="va">` bound to `srcPosA`. -/
def vertsA : XVertices := ⟨some "va", [⟨some "POSITION", some "#pa", none, none⟩]⟩

/-- `<vertices id="vb">` bound to `srcPosB`. -/
def vertsB : XVertices := ⟨some "vb", [⟨some "POSITION", some "#pb", none, none⟩]⟩

/-- A `<triangles>` block on pool `va` with the given count and stream. -/
def triA (count ptxt : String) : XTriangles :=
  ⟨some count, none, [⟨some "VERTEX", some "#va", some "0", none⟩], some ptxt⟩

/-- A geometry over `srcPosA`/`srcPosB` with the given blocks. -/
def geomAB (tris : List XTriangles) : XGeometry :=
  ⟨some "g", some "G", some ⟨[srcPosA, srcPosB], [vertsA, vertsB], tris⟩⟩

/-- C1 failing input: `count="2"` but only 3 indices in the stream. -/
def gC1 : XGeometry := geomAB [triA "2" "0 1 2"]

/-- C3 counterexample: two blocks referencing different position sources. -/
def gC3 : XGeometry :=
  geomAB [triA "1" "0 1 2",
          ⟨some "1", none, [⟨some "VERTEX", some "#vb", some "0", none⟩], some "0 1 2"⟩]

/-- The mesh the importer hands to the sink for `gC3`. -/
def mC3 : MeshOut :=
  { name := "G"
    positions := [[5, 5, 5], [6, 5, 5], [5, 6, 5]]
    faces := [[0, 1, 2], [0, 1, 2]]
    face_mat_ids := [none, none]
    uvsWritten := none
    colsWritten := none
    normsWritten := none }

/-- C4 counterexample: a good block followed by a block with no VERTEX
binding. -/
def gC4 : XGeometry :=
  geomAB [triA "1" "0 1 2",
          ⟨some "1", none, [⟨some "NORMAL", some "#pa", some "0", none⟩], some "0 0 0"⟩]

/-- The same geometry with only the good block. -/
def gC4only : XGeometry := geomAB [triA "1" "0 1 2"]

/-- The mesh produced for `gC4only`. -/
def mC4 : MeshOut :=
  { name := "G"
    positions := [[0, 0, 0], [1, 0, 0], [0, 1, 0]]
    faces := [[0, 1, 2]]
    face_mat_ids := [none]
    uvsWritten := none
    colsWritten := none
    normsWritten := none }

/-- C10 input: raw vertex indices `0, -1, 99` against a 3-row position
table. -/
def gC10 : XGeometry := geomAB [triA "1" "0 -1 99"]

/-- The mesh produced for `gC10`: the face cites rows `-1` and `99` of a
3-row table. -/
def mC10 : MeshOut :=
  { name := "G"
    positions := [[0, 0, 0], [1, 0, 0], [0, 1, 0]]
    faces := [[0, -1, 99]]
    face_mat_ids := [none]
    uvsWritten := none
    colsWritten := none
    normsWritten := none }

/-- C8 witness input: one block carrying a TEXCOORD channel. -/
def gC8 : XGeometry :=
  ⟨some "g", some "G",
   some ⟨[srcPosA, srcUV], [vertsA],
         [⟨some "1", none,
           [⟨some "VERTEX", some "#va", some "0", none⟩,
            ⟨some "TEXCOORD", some "#uvs", some "1", some "0"⟩],
           some "0 0 1 0 2 0"⟩]⟩⟩

/-- The mesh produced for `gC8`. -/
def mC8 : MeshOut :=
  { name := "G"
    positions := [[0, 0, 0], [1, 0, 0], [0, 1, 0]]
    faces := [[0, 1, 2]]
    face_mat_ids := [none]
    uvsWritten := some [(0, 0), (0, 0), (0, 0)]
    colsWritten := none
    normsWritten := none }


/-- The concrete `input_by_offset` of a block with two NORMAL bindings. -/
def iboC2 : List IboEntry :=
  [(0, (some "VERTEX", "v", none)),
   (1, (some "NORMAL", "na", none)),
   (2, (some "NORMAL", "nb", none))]

/-- The source dict seen by that block. -/
def srcsC2 : List (String × SrcTable) := [("na", [[1, 0, 0]]), ("nb", [[0, 1, 0]])]

lemma stepNormal_shape {ctx : BlockCtx} {raw : List Int} {b : Int} {td td2 : TriData}
    (h : stepNormal ctx raw b td = .ok td2) :
    td2.verts = td.verts ∧ td2.uv = td.uv ∧ td2.col = td.col ∧
      td2.norm.length = td.norm.length + (if normalActive ctx then 1 else 0) := by
  unfold stepNormal at h
  unfold normalActive truthy
  rcases hno : ctx.os.normal_offset with _ | noff <;> rw [hno] at h
  · rcases hns : ctx.os.normal_source with _ | ns <;> rw [hns] at h <;>
      simp_all [pure, Except.pure]
  · rcases hns : ctx.os.normal_source with _ | ns <;> rw [hns] at h
    · simp_all [pure, Except.pure]
    · by_cases he : ns.isEmpty <;> simp [he] at h ⊢
      · simp_all [pure, Except.pure]
      · rcases hg : pyGetE raw (b + noff) with e | ni <;> rw [hg] at h <;>
          simp_all [pure, Except.pure, Except.bind, bind]
        subst h
        simp

lemma stepColor_shape {ctx : BlockCtx} {raw : List Int} {b : Int} {td td2 : TriData}
    (h : stepColor ctx raw b td = .ok td2) :
    td2.verts = td.verts ∧ td2.uv = td.uv ∧ td2.norm = td.norm ∧
      td2.col.length = td.col.length + (if colorActive ctx then 1 else 0) := by
  unfold stepColor at h
  unfold colorActive truthy
  rcases hco : ctx.os.color_offset with _ | coff <;> rw [hco] at h
  · rcases hcs : ctx.os.color_source with _ | cs <;> rw [hcs] at h <;>
      simp_all [pure, Except.pure]
  · rcases hcs : ctx.os.color_source with _ | cs <;> rw [hcs] at h
    · simp_all [pure, Except.pure]
    · by_cases he : cs.isEmpty <;> simp [he] at h ⊢
      · simp_all [pure, Except.pure]
      · rcases hg : pyGetE raw (b + coff) with e | ci <;> rw [hg] at h <;>
          simp_all [pure, Except.pure, Except.bind, bind]
        subst h
        simp

lemma stepUV_shape {ctx : BlockCtx} {raw : List Int} {b : Int} {td td2 : TriData}
    (h : stepUV ctx raw b td = .ok td2) :
    td2.verts = td.verts ∧ td2.col = td.col ∧ td2.norm = td.norm ∧
      td2.uv.length = td.uv.length + (if uvActive ctx then 1 else 0) := by
  unfold stepUV at h
  unfold uvActive truthy
  rcases huo : ctx.os.uv_offset with _ | uoff <;> rw [huo] at h
  · rcases hus : ctx.os.uv_source with _ | us <;> rw [hus] at h <;>
      simp_all [pure, Except.pure]
  · rcases hus : ctx.os.uv_source with _ | us <;> rw [hus] at h
    · simp_all [pure, Except.pure]
    · by_cases he : us.isEmpty <;> simp [he] at h ⊢
      · simp_all [pure, Except.pure]
      · rcases hg : pyGetE raw (b + uoff) with e | ti <;> rw [hg] at h <;>
          simp_all [pure, Except.pure, Except.bind, bind]
        rcases hu : cornerUV us ti with e | uvv <;> rw [hu] at h <;>
          simp_all [pure, Except.pure, Except.bind, bind]
        subst h
        simp

lemma corner_shape {ctx : BlockCtx} {raw : List Int} {base : Int} {td td2 : TriData} {v : ℕ}
    (h : corner ctx raw base td v = .ok td2) :
    ∃ vi, pyGetE raw (base + (v : Int) * ctx.num_inputs + ctx.vertex_offset) = .ok vi ∧
      td2.verts = td.verts ++ [vi] ∧
      td2.norm.length = td.norm.length + (if normalActive ctx then 1 else 0) ∧
      td2.col.length = td.col.length + (if colorActive ctx then 1 else 0) ∧
      td2.uv.length = td.uv.length + (if uvActive ctx then 1 else 0) := by
  unfold corner at h
  simp only [bind, Except.bind] at h
  rcases hg : pyGetE raw (base + (v : Int) * ctx.num_inputs + ctx.vertex_offset) with e | vi <;>
    simp only [hg] at h
  · exact Except.noConfusion h
  · rcases hn : stepNormal ctx raw (base + (v : Int) * ctx.num_inputs)
        { td with verts := td.verts ++ [vi] } with e | td1 <;> simp only [hn] at h
    · exact Except.noConfusion h
    · rcases hc : stepColor ctx raw (base + (v : Int) * ctx.num_inputs) td1 with e | td3 <;>
        simp only [hc] at h
      · exact Except.noConfusion h
      · obtain ⟨n1, n2, n3, n4⟩ := stepNormal_shape hn
        obtain ⟨c1, c2, c3, c4⟩ := stepColor_shape hc
        obtain ⟨u1, u2, u3, u4⟩ := stepUV_shape h
        refine ⟨vi, rfl, ?_, ?_, ?_, ?_⟩ <;> simp_all

lemma decodeTriangle_shape {ctx : BlockCtx} {raw : List Int} {i : ℕ} {td : TriData}
    (h : decodeTriangle ctx raw i = .ok td) :
    ∃ a b c,
      pyGetE raw ((i : Int) * 3 * ctx.num_inputs + ((0 : ℕ) : Int) * ctx.num_inputs + ctx.vertex_offset) = .ok a ∧
      pyGetE raw ((i : Int) * 3 * ctx.num_inputs + ((1 : ℕ) : Int) * ctx.num_inputs + ctx.vertex_offset) = .ok b ∧
      pyGetE raw ((i : Int) * 3 * ctx.num_inputs + ((2 : ℕ) : Int) * ctx.num_inputs + ctx.vertex_offset) = .ok c ∧
      td.verts = [a, b, c] ∧
      td.norm.length = (if normalActive ctx then 3 else 0) ∧
      td.col.length = (if colorActive ctx then 3 else 0) ∧
      td.uv.length = (if uvActive ctx then 3 else 0) := by
  unfold decodeTriangle at h
  simp only [List.foldlM, bind, Except.bind] at h
  rcases h0 : corner ctx raw ((i : Int) * 3 * ctx.num_inputs) ⟨[], [], [], []⟩ 0 with e | td1 <;>
    simp only [h0] at h
  · exact Except.noConfusion h
  · rcases h1 : corner ctx raw ((i : Int) * 3 * ctx.num_inputs) td1 1 with e | td2 <;>
      simp only [h1] at h
    · exact Except.noConfusion h
    · rcases h2 : corner ctx raw ((i : Int) * 3 * ctx.num_inputs) td2 2 with e | td3 <;>
        simp only [h2, pure, Except.pure] at h
      · exact Except.noConfusion h
      · obtain rfl : td3 = td := by cases h; rfl
        obtain ⟨a, ga, va, na, ca, ua⟩ := corner_shape h0
        obtain ⟨b, gb, vb, nb, cb, ub⟩ := corner_shape h1
        obtain ⟨c, gc, vc, nc, cc, uc⟩ := corner_shape h2
        refine ⟨a, b, c, ga, gb, gc, ?_, ?_, ?_, ?_⟩ <;>
          simp_all <;> split <;> simp_all

lemma triStep_shape {ctx : BlockCtx} {raw : List Int} {st st2 : TState} {i : ℕ}
    (h : triStep ctx raw st i = .ok st2) :
    st2 = st ∨
      ∃ td, decodeTriangle ctx raw i = .ok td ∧ ¬td.verts.dedup.length < 3 ∧
        st2 = ⟨st.faces ++ [td.verts], st.mats ++ [ctx.mat], st.uvs ++ td.uv,
               st.cols ++ td.col, st.norms ++ td.norm⟩ := by
  unfold triStep at h
  simp only [bind, Except.bind] at h
  rcases hd : decodeTriangle ctx raw i with e | td <;> simp only [hd] at h
  · exact Except.noConfusion h
  · by_cases hdeg : td.verts.dedup.length < 3 <;>
      simp only [hdeg, if_pos, if_neg, pure, Except.pure, reduceIte] at h
    · exact Or.inl (by cases h; rfl)
    · exact Or.inr ⟨td, rfl, hdeg, by cases h; rfl⟩

lemma triStep_degenerate {ctx : BlockCtx} {raw : List Int} {st : TState} {i : ℕ} {td : TriData}
    (hd : decodeTriangle ctx raw i = .ok td) (hdeg : td.verts.dedup.length < 3) :
    triStep ctx raw st i = .ok st := by
  unfold triStep
  simp [hd, hdeg, bind, Except.bind, pure, Except.pure]

lemma triFold_lens {ctx : BlockCtx} {raw : List Int} :
    ∀ (idxs : List ℕ) (st st2 : TState),
      idxs.foldlM (triStep ctx raw) st = .ok st2 →
      st2.mats.length + st.faces.length = st.mats.length + st2.faces.length ∧
      (normalActive ctx = true →
        st2.norms.length + 3 * st.faces.length = st.norms.length + 3 * st2.faces.length) ∧
      (normalActive ctx = false → st2.norms = st.norms) ∧
      (colorActive ctx = true →
        st2.cols.length + 3 * st.faces.length = st.cols.length + 3 * st2.faces.length) ∧
      (colorActive ctx = false → st2.cols = st.cols) ∧
      (uvActive ctx = true →
        st2.uvs.length + 3 * st.faces.length = st.uvs.length + 3 * st2.faces.length) ∧
      (uvActive ctx = false → st2.uvs = st.uvs) := by
  intro idxs
  induction idxs with
  | nil =>
    intro st st2 h
    simp only [List.foldlM, pure, Except.pure] at h
    cases h
    simp
  | cons i rest ih =>
    intro st st2 h
    simp only [List.foldlM, bind, Except.bind] at h
    rcases h1 : triStep ctx raw st i with e | st1 <;> rw [h1] at h
    · exact Except.noConfusion h
    · have hrest := ih st1 st2 h
      rcases triStep_shape h1 with rfl | ⟨td, hd, _, rfl⟩
      · exact hrest
      · obtain ⟨_, _, _, _, hn3, hc3, hu3⟩ := decodeTriangle_shape hd
        obtain ⟨m1, n1, n2, c1, c2, u1, u2⟩ := hrest
        refine ⟨by simp_all; omega, ?_, ?_, ?_, ?_, ?_, ?_⟩ <;> intro hact <;>
          simp_all <;> omega

/-! ## Lemmas about one `<triangles>` block -/

lemma processTriBlock_skip {srcs : List (String × SrcTable)} {vmap : List (String × String)}
    {st : Accum} {tri : XTriangles} {c : Int}
    (hc : parseInt? (tri.count.getD "0") = some c)
    (hp : tri.p_text = none ∨ tri.p_text = some "") :
    processTriBlock srcs vmap st tri = .ok (some st) := by
  unfold processTriBlock
  rcases hp with hp | hp <;>
    simp [parseIntE, hc, hp, bind, Except.bind, pure, Except.pure]

lemma processTriBlock_fail {srcs : List (String × SrcTable)} {vmap : List (String × String)}
    {st : Accum} {tri : XTriangles} {c : Int} {ptxt : String} {im : List IboEntry × Int}
    (hc : parseInt? (tri.count.getD "0") = some c)
    (hp : tri.p_text = some ptxt) (hne : ptxt ≠ "")
    (him : mkInputByOffset tri.inputs = .ok im)
    (hv : resolveVertexBlock srcs vmap im.1 = none) :
    processTriBlock srcs vmap st tri = .ok none := by
  unfold processTriBlock
  simp [parseIntE, hc, hp, hne, him, hv, bind, Except.bind, pure, Except.pure]

lemma processTriBlock_ok_shape {srcs : List (String × SrcTable)} {vmap : List (String × String)}
    {st st2 : Accum} {tri : XTriangles} {c : Int} {ptxt : String} {im : List IboEntry × Int}
    (h : processTriBlock srcs vmap st tri = .ok (some st2))
    (hc : parseInt? (tri.count.getD "0") = some c)
    (hp : tri.p_text = some ptxt) (hne : ptxt ≠ "")
    (him : mkInputByOffset tri.inputs = .ok im) :
    ∃ vp raw ts2,
      resolveVertexBlock srcs vmap im.1 = some vp ∧
      parseRawIdx ptxt = .ok raw ∧
      (List.range c.toNat).foldlM
        (triStep ⟨im.2 + 1, vp.1, tri.material, resolveOptional srcs im.1⟩ raw) st.ts =
        .ok ts2 ∧
      st2 = ⟨some vp.2, ts2⟩ := by
  unfold processTriBlock at h
  simp only [parseIntE, hc, hp, hne, him, bind, Except.bind, if_neg, reduceIte] at h
  rcases hv : resolveVertexBlock srcs vmap im.1 with _ | vp <;> simp only [hv] at h
  · simp [pure, Except.pure] at h
  · rcases hraw : parseRawIdx ptxt with e | raw <;> simp only [hraw] at h
    · exact Except.noConfusion h
    · rcases hfold : (List.range c.toNat).foldlM
          (triStep ⟨im.2 + 1, vp.1, tri.material, resolveOptional srcs im.1⟩ raw) st.ts
          with e | ts2 <;> simp only [hfold] at h
      · exact Except.noConfusion h
      · refine ⟨vp, raw, ts2, rfl, rfl, hfold, ?_⟩
        simp [pure, Except.pure] at h
        exact h.symm

lemma processTriBlock_align {srcs : List (String × SrcTable)} {vmap : List (String × String)}
    {st st2 : Accum} {tri : XTriangles}
    (h : processTriBlock srcs vmap st tri = .ok (some st2))
    (hal : st.ts.mats.length = st.ts.faces.length) :
    st2.ts.mats.length = st2.ts.faces.length := by
  unfold processTriBlock at h
  simp only [bind, Except.bind] at h
  rcases hce : parseIntE (tri.count.getD "0") with e | c <;> simp only [hce] at h
  · exact Except.noConfusion h
  · rcases hp : tri.p_text with _ | ptxt <;> simp only [hp] at h
    · simp [pure, Except.pure] at h
      rw [← h, hal]
    · by_cases hne : ptxt = "" <;> simp only [hne, reduceIte, if_pos, if_neg] at h
      · simp [pure, Except.pure] at h
        rw [← h, hal]
      · rcases him : mkInputByOffset tri.inputs with e | im <;> simp only [him] at h
        · exact Except.noConfusion h
        · rcases hv : resolveVertexBlock srcs vmap im.1 with _ | vp <;> simp only [hv] at h
          · simp [pure, Except.pure] at h
          · rcases hraw : parseRawIdx ptxt with e | raw <;> simp only [hraw] at h
            · exact Except.noConfusion h
            · rcases hfold : (List.range c.toNat).foldlM
                  (triStep ⟨im.2 + 1, vp.1, tri.material, resolveOptional srcs im.1⟩ raw) st.ts
                  with e | ts2 <;> simp only [hfold] at h
              · exact Except.noConfusion h
              · obtain ⟨hm, _⟩ := triFold_lens _ _ _ hfold
                simp [pure, Except.pure] at h
                rw [← h]
                simp only [Accum.ts]
                omega

/-! ## Lemmas about the block loop and the final assembly -/

lemma processBlocks_align {srcs : List (String × SrcTable)} {vmap : List (String × String)} :
    ∀ {blocks : List XTriangles} {st st2 : Accum},
      processBlocks srcs vmap blocks st = .ok (some st2) →
      st.ts.mats.length = st.ts.faces.length →
      st2.ts.mats.length = st2.ts.faces.length := by
  intro blocks
  induction blocks with
  | nil =>
    intro st st2 h hal
    unfold processBlocks at h
    simp [pure, Except.pure] at h
    rw [← h]
    exact hal
  | cons tri rest ih =>
    intro st st2 h hal
    unfold processBlocks at h
    simp only [bind, Except.bind] at h
    rcases h1 : processTriBlock srcs vmap st tri with e | o <;> simp only [h1] at h
    · exact Except.noConfusion h
    · rcases o with _ | st1
      · simp [pure, Except.pure] at h
      · exact ih h (processTriBlock_align h1 hal)

lemma processBlocks_cons_none {srcs : List (String × SrcTable)} {vmap : List (String × String)}
    {st : Accum} {tri : XTriangles} {rest : List XTriangles}
    (h : processTriBlock srcs vmap st tri = .ok none) :
    processBlocks srcs vmap (tri :: rest) st = .ok none := by
  unfold processBlocks
  simp [h, bind, Except.bind, pure, Except.pure]

/-- Successful geometry build, dissected: what must have held of the block
loop and how the `MeshOut` record is filled in. -/
lemma build_ok_shape {geom : XGeometry} {m : MeshOut}
    (h : build_mesh_from_geometry geom = .ok (some m)) :
    ∃ mesh srcs acc pos,
      geom.mesh = some mesh ∧
      buildSources mesh.sources = .ok srcs ∧
      processBlocks srcs (buildVerticesMap mesh.vertices) mesh.triangles initAccum =
        .ok (some acc) ∧
      acc.positions = some pos ∧
      (pos.isEmpty || acc.ts.faces.isEmpty) = false ∧
      m = { name := firstTruthy [geom.name, geom.id] "DAE_Mesh"
            positions := pos
            faces := acc.ts.faces
            face_mat_ids := acc.ts.mats
            uvsWritten :=
              if !acc.ts.uvs.isEmpty && acc.ts.uvs.length = 3 * acc.ts.faces.length then
                some acc.ts.uvs
              else none
            colsWritten :=
              if !acc.ts.cols.isEmpty && acc.ts.cols.length = 3 * acc.ts.faces.length then
                some acc.ts.cols
              else none
            normsWritten :=
              if !acc.ts.norms.isEmpty && acc.ts.norms.length = 3 * acc.ts.faces.length then
                some acc.ts.norms
              else none } := by
  unfold build_mesh_from_geometry at h
  rcases hmesh : geom.mesh with _ | mesh <;> rw [hmesh] at h
  · simp at h
  · simp only [bind, Except.bind] at h
    rcases hsrc : buildSources mesh.sources with e | srcs <;> simp only [hsrc] at h
    · exact Except.noConfusion h
    · rcases hpb : processBlocks srcs (buildVerticesMap mesh.vertices) mesh.triangles initAccum
          with e | o <;> simp only [hpb] at h
      · exact Except.noConfusion h
      · rcases o with _ | acc
        · simp [pure, Except.pure] at h
        · rcases hpos : acc.positions with _ | pos <;> simp only [hpos] at h
          · simp [pure, Except.pure] at h
          · by_cases hemp : (pos.isEmpty || acc.ts.faces.isEmpty) = true <;>
              simp only [hemp, reduceIte, if_pos, if_neg] at h
            · simp [pure, Except.pure] at h
            · simp only [pure, Except.pure] at h
              injection h with h1
              injection h1 with h2
              exact ⟨mesh, srcs, acc, pos, rfl, hsrc, hpb, hpos, by simp_all, h2.symm⟩

/-! ## Lemmas about the optional-semantic resolution (the if/elif chain) -/

lemma resolveOptStep_normal {srcs : List (String × SrcTable)} {s : OptSem} {e : IboEntry}
    (he : eSem e = some "NORMAL") :
    resolveOptStep srcs s e =
      { s with normal_offset := some (eOff e), normal_source := dictGet? (eSrc e) srcs } := by
  unfold resolveOptStep
  simp [he]

lemma resolveOptStep_color {srcs : List (String × SrcTable)} {s : OptSem} {e : IboEntry}
    (he : eSem e = some "COLOR") :
    resolveOptStep srcs s e =
      { s with color_offset := some (eOff e), color_source := dictGet? (eSrc e) srcs } := by
  unfold resolveOptStep
  simp [he]

lemma resolveOptStep_not_normal {srcs : List (String × SrcTable)} {s : OptSem} {e : IboEntry}
    (he : ¬eSem e = some "NORMAL") :
    (resolveOptStep srcs s e).normal_offset = s.normal_offset ∧
      (resolveOptStep srcs s e).normal_source = s.normal_source := by
  unfold resolveOptStep
  split_ifs <;> simp_all

lemma resolveOptStep_not_color {srcs : List (String × SrcTable)} {s : OptSem} {e : IboEntry}
    (he : ¬eSem e = some "COLOR") :
    (resolveOptStep srcs s e).color_offset = s.color_offset ∧
      (resolveOptStep srcs s e).color_source = s.color_source := by
  unfold resolveOptStep
  split_ifs <;> simp_all

lemma resolveOptStep_not_uv {srcs : List (String × SrcTable)} {s : OptSem} {e : IboEntry}
    (he : ¬eSem e = some "TEXCOORD") :
    (resolveOptStep srcs s e).uv_offset = s.uv_offset ∧
      (resolveOptStep srcs s e).uv_source = s.uv_source := by
  unfold resolveOptStep
  split_ifs <;> simp_all

lemma resolveOptStep_uv_take {srcs : List (String × SrcTable)} {s : OptSem} {e : IboEntry}
    (he : eSem e = some "TEXCOORD") (hcond : s.uv_source = none ∨ eSet e = some "0") :
    resolveOptStep srcs s e =
      { s with uv_offset := some (eOff e), uv_source := dictGet? (eSrc e) srcs } := by
  unfold resolveOptStep
  rcases hcond with hc | hc <;> simp [he, hc]

lemma resolveOptStep_uv_keep {srcs : List (String × SrcTable)} {s : OptSem} {e : IboEntry}
    (he : eSem e = some "TEXCOORD") (h1 : ¬s.uv_source = none) (h2 : ¬eSet e = some "0") :
    resolveOptStep srcs s e = s := by
  unfold resolveOptStep
  simp [he, h1, h2]


lemma getLast?_append_single (l : List α) (a : α) : (l ++ [a]).getLast? = some a := by
  rw [List.getLast?_append_cons]
  rfl

lemma foldl_opt_normal {srcs : List (String × SrcTable)} :
    ∀ (l : List IboEntry) (s : OptSem),
      (l.foldl (resolveOptStep srcs) s).normal_offset =
        (match lastWithSem "NORMAL" l with
         | none => s.normal_offset
         | some e => some (eOff e)) ∧
      (l.foldl (resolveOptStep srcs) s).normal_source =
        (match lastWithSem "NORMAL" l with
         | none => s.normal_source
         | some e => dictGet? (eSrc e) srcs) := by
  intro l
  induction l using List.reverseRecOn with
  | nil => intro s; simp [lastWithSem]
  | append_singleton l e ih =>
    intro s
    rw [List.foldl_append]
    by_cases he : eSem e = some "NORMAL"
    · have hl : lastWithSem "NORMAL" (l ++ [e]) = some e := by
        simp [lastWithSem, List.filter_append, List.filter, he, getLast?_append_single]
      rw [hl]
      simp [resolveOptStep_normal he]
    · have hl : lastWithSem "NORMAL" (l ++ [e]) = lastWithSem "NORMAL" l := by
        unfold lastWithSem
        rw [List.filter_append]
        simp [List.filter, he]
      rw [hl]
      obtain ⟨h1, h2⟩ :=
        @resolveOptStep_not_normal srcs (l.foldl (resolveOptStep srcs) s) e he
      simp only [List.foldl_cons, List.foldl_nil]
      rw [h1, h2]
      exact ih s

lemma foldl_opt_color {srcs : List (String × SrcTable)} :
    ∀ (l : List IboEntry) (s : OptSem),
      (l.foldl (resolveOptStep srcs) s).color_offset =
        (match lastWithSem "COLOR" l with
         | none => s.color_offset
         | some e => some (eOff e)) ∧
      (l.foldl (resolveOptStep srcs) s).color_source =
        (match lastWithSem "COLOR" l with
         | none => s.color_source
         | some e => dictGet? (eSrc e) srcs) := by
  intro l
  induction l using List.reverseRecOn with
  | nil => intro s; simp [lastWithSem]
  | append_singleton l e ih =>
    intro s
    rw [List.foldl_append]
    by_cases he : eSem e = some "COLOR"
    · have hl : lastWithSem "COLOR" (l ++ [e]) = some e := by
        simp [lastWithSem, List.filter_append, List.filter, he, getLast?_append_single]
      rw [hl]
      simp [resolveOptStep_color he]
    · have hl : lastWithSem "COLOR" (l ++ [e]) = lastWithSem "COLOR" l := by
        unfold lastWithSem
        rw [List.filter_append]
        simp [List.filter, he]
      rw [hl]
      obtain ⟨h1, h2⟩ :=
        @resolveOptStep_not_color srcs (l.foldl (resolveOptStep srcs) s) e he
      simp only [List.foldl_cons, List.foldl_nil]
      rw [h1, h2]
      exact ih s

lemma foldl_uv_stable {srcs : List (String × SrcTable)} :
    ∀ (l : List IboEntry) (s : OptSem), ¬s.uv_source = none →
      (∀ f ∈ l, eSem f = some "TEXCOORD" → ¬eSet f = some "0") →
      (l.foldl (resolveOptStep srcs) s).uv_offset = s.uv_offset ∧
        (l.foldl (resolveOptStep srcs) s).uv_source = s.uv_source := by
  intro l
  induction l with
  | nil => intro s _ _; simp
  | cons f r ih =>
    intro s hs hl
    simp only [List.foldl_cons]
    by_cases hf : eSem f = some "TEXCOORD"
    · rw [resolveOptStep_uv_keep hf hs (hl f (by simp) hf)]
      exact ih s hs (fun g hg => hl g (by simp [hg]))
    · obtain ⟨h1, h2⟩ := @resolveOptStep_not_uv srcs s f hf
      have := ih (resolveOptStep srcs s f) (by rw [h2]; exact hs)
        (fun g hg => hl g (by simp [hg]))
      rw [this.1, this.2, h1, h2]
      exact ⟨rfl, rfl⟩

lemma foldl_uv_preserved {srcs : List (String × SrcTable)} :
    ∀ (l : List IboEntry) (s : OptSem), (∀ f ∈ l, ¬eSem f = some "TEXCOORD") →
      (l.foldl (resolveOptStep srcs) s).uv_offset = s.uv_offset ∧
        (l.foldl (resolveOptStep srcs) s).uv_source = s.uv_source := by
  intro l
  induction l with
  | nil => intro s _; simp
  | cons f r ih =>
    intro s hl
    simp only [List.foldl_cons]
    obtain ⟨h1, h2⟩ := @resolveOptStep_not_uv srcs s f (hl f (by simp))
    have := ih (resolveOptStep srcs s f) (fun g hg => hl g (by simp [hg]))
    rw [this.1, this.2, h1, h2]
    exact ⟨rfl, rfl⟩


lemma foldl_uv_source_none {srcs : List (String × SrcTable)} :
    ∀ (l : List IboEntry) (s : OptSem), s.uv_source = none →
      (∀ f ∈ l, eSem f = some "TEXCOORD" → dictGet? (eSrc f) srcs = none) →
      (l.foldl (resolveOptStep srcs) s).uv_source = none := by
  intro l
  induction l with
  | nil => intro s hs _; simpa using hs
  | cons f r ih =>
    intro s hs hl
    simp only [List.foldl_cons]
    by_cases hf : eSem f = some "TEXCOORD"
    · rw [resolveOptStep_uv_take hf (Or.inl hs)]
      exact ih _ (by simp [hl f (by simp) hf]) (fun g hg hT => hl g (by simp [hg]) hT)
    · obtain ⟨h1, h2⟩ := @resolveOptStep_not_uv srcs s f hf
      exact ih _ (by rw [h2]; exact hs) (fun g hg hT => hl g (by simp [hg]) hT)

/-! ## Claim C1 -/

/-- Claim C1 (code bug): the spec says a triangle block whose raw index
stream is shorter than `count × 3 × num_inputs` is decoded from the valid
prefix only, never reading past the end, with truncated triangles dropped.
The code only prints a warning and then indexes `raw_idx[b + offset]`
unguarded: on `gC1` (count 2, one input, stream `0 1 2`) the second
triangle's first read is `raw_idx[3]`, an uncaught `IndexError` that aborts
the whole import instead of emitting `min(2, 3 div 3) = 1` face. -/
theorem C1_code_bug_short_stream_raises :
    build_mesh_from_geometry gC1 = .error "IndexError" := by rfl

/-! ## Claim C5 -/

/-- Claim C5 (counterexample): decoding a source is claimed never to raise
for any value of the accessor's stride attribute; but a non-integer stride
(`"x"`) raises `ValueError` from `int()`, and a zero stride raises
`ValueError` from `range(0, n, 0)` — both uncaught. -/
theorem C5_counterexample_bad_stride_raises :
    parse_source_float_array ⟨some "s1", some (some "1 2 3"), some ⟨some "x"⟩⟩ =
      .error "ValueError: invalid literal for int()" ∧
    parse_source_float_array ⟨some "s2", some (some "1 2 3"), some ⟨some "0"⟩⟩ =
      .error "ValueError: range() arg 3 must not be zero" := ⟨rfl, rfl⟩

/-- Claim C5 (amended): decoding never raises provided the accessor is
absent, or its stride attribute parses as a nonzero integer; a missing
`float_array`/text and unparsable float text still yield the empty result
(the `ValueError` from `float()` is caught before the stride is parsed). -/
theorem C5_amended_no_raise_except_stride :
    (∀ src : XSource, src.accessor = none →
      ∃ v, parse_source_float_array src = .ok v) ∧
    (∀ (src : XSource) (acc : XAccessor) (s : Int), src.accessor = some acc →
      parseInt? (acc.stride.getD "3") = some s → ¬s = 0 →
      ∃ v, parse_source_float_array src = .ok v) ∧
    (∀ (src : XSource) (txt : String), src.float_array = some (some txt) →
      mapMOpt parseFloat? (pySplit txt) = none →
      parse_source_float_array src = .ok []) := by
  refine ⟨?_, ?_, ?_⟩
  · intro src hacc
    unfold parse_source_float_array strideResult
    rcases hfa : src.float_array with _ | ofa
    · exact ⟨[], by simp [hfa]⟩
    · rcases ofa with _ | txt
      · exact ⟨[], by simp [hfa]⟩
      · rcases hm : mapMOpt parseFloat? (pySplit txt) with _ | floats
        · exact ⟨[], by simp [hfa, hm]⟩
        · exact ⟨chunkPos 3 floats, by simp [hfa, hm, hacc]⟩
  · intro src acc s hacc hs hnz
    unfold parse_source_float_array strideResult
    rcases hfa : src.float_array with _ | ofa
    · exact ⟨[], by simp [hfa]⟩
    · rcases ofa with _ | txt
      · exact ⟨[], by simp [hfa]⟩
      · rcases hm : mapMOpt parseFloat? (pySplit txt) with _ | floats
        · exact ⟨[], by simp [hfa, hm]⟩
        · by_cases hlt : s < 0
          · exact ⟨[], by simp only [hfa, hm, hacc, hs]; rw [if_neg hnz, if_pos hlt]⟩
          · exact ⟨chunkPos s.toNat floats,
              by simp only [hfa, hm, hacc, hs]; rw [if_neg hnz, if_neg hlt]⟩
  · intro src txt hfa hmap
    unfold parse_source_float_array
    simp only [hfa, hmap]

/-- Claim C5 witness: the amended theorem applied to a concrete source with
a parsable stride of 3. -/
theorem C5_witness :
    ∃ v, parse_source_float_array ⟨some "s3", some (some "1 2 3 4"), some ⟨some "3"⟩⟩ =
      .ok v :=
  C5_amended_no_raise_except_stride.2.1
    ⟨some "s3", some (some "1 2 3 4"), some ⟨some "3"⟩⟩ ⟨some "3"⟩ 3 rfl rfl (by decide)

/-! ## Claim C6 -/

/-- Claim C6: out-of-range optional-semantic row indices fall back to
`(0,0,1)` for normals, `(1,1,1,1)` for colors and `(0,0)` for uvs; an
in-range color row of width 3 is promoted to alpha 1 and any in-range color
row of width other than 3 or 4 yields opaque white. -/
theorem C6_fallback_values :
    (∀ (ns : SrcTable) (ni : Int), ¬(0 ≤ ni ∧ ni < ns.length) →
      cornerNormal ns ni = [0, 0, 1]) ∧
    (∀ (cs : SrcTable) (ci : Int), ¬(0 ≤ ci ∧ ci < cs.length) →
      cornerColor cs ci = (1, 1, 1, 1)) ∧
    (∀ (us : SrcTable) (ti : Int), ¬(0 ≤ ti ∧ ti < us.length) →
      cornerUV us ti = .ok (0, 0)) ∧
    (∀ (cs : SrcTable) (ci : Int) (c : List ℚ), 0 ≤ ci → ci < cs.length →
      cs.getD ci.toNat [] = c → c.length = 3 →
      cornerColor cs ci = (c.getD 0 0, c.getD 1 0, c.getD 2 0, 1)) ∧
    (∀ (cs : SrcTable) (ci : Int) (c : List ℚ), 0 ≤ ci → ci < cs.length →
      cs.getD ci.toNat [] = c → ¬c.length = 3 → ¬c.length = 4 →
      cornerColor cs ci = (1, 1, 1, 1)) := by
  refine ⟨?_, ?_, ?_, ?_, ?_⟩
  · intro ns ni h
    unfold cornerNormal
    rw [if_neg h]
  · intro cs ci h
    unfold cornerColor
    rw [if_neg h]
  · intro us ti h
    unfold cornerUV
    rw [if_neg h]
    rfl
  · intro cs ci c h1 h2 hc h3
    unfold cornerColor
    rw [if_pos ⟨h1, h2⟩]
    subst hc
    simp_all
  · intro cs ci c h1 h2 hc h3 h4
    unfold cornerColor
    rw [if_pos ⟨h1, h2⟩]
    subst hc
    simp_all

/-- Claim C6 witness: the fallbacks at concrete inputs — index 3 into a
one-row normal table, index −1 into a color table, index 7 into a uv table,
and a width-3 color row at an in-range index. -/
theorem C6_witness :
    cornerNormal [[5, 5, 5]] 3 = [0, 0, 1] ∧
    cornerColor [[5, 5, 5, 5]] (-1) = (1, 1, 1, 1) ∧
    cornerUV [[5, 5]] 7 = .ok (0, 0) ∧
    cornerColor [[2, 3, 4]] 0 = (2, 3, 4, 1) :=
  ⟨C6_fallback_values.1 [[5, 5, 5]] 3 (by decide),
   C6_fallback_values.2.1 [[5, 5, 5, 5]] (-1) (by decide),
   C6_fallback_values.2.2.1 [[5, 5]] 7 (by decide),
   C6_fallback_values.2.2.2.1 [[2, 3, 4]] 0 [2, 3, 4] (by decide) (by decide) rfl rfl⟩

/-! ## Claim C9 -/

lemma chunkAux_spec {s : ℕ} (_hs : 1 ≤ s) :
    ∀ (n fuel : ℕ) (l : List ℚ), n ≤ fuel → n * s ≤ l.length → l.length < (n + 1) * s →
      (chunkAux s fuel l).length = n ∧ ∀ t ∈ chunkAux s fuel l, t.length = s := by
  intro n
  induction n with
  | zero =>
    intro fuel l _ _ hup
    have hlt : l.length < s := by omega
    rcases fuel with _ | f
    · simp [chunkAux]
    · simp [chunkAux, hlt]
  | succ n ih =>
    intro fuel l hf hlo hup
    rcases fuel with _ | f
    · omega
    · have hsm1 : (n + 1) * s = n * s + s := Nat.succ_mul n s
      have hsm2 : (n + 1 + 1) * s = (n + 1) * s + s := Nat.succ_mul (n + 1) s
      have hge : ¬l.length < s := by omega
      have hdl : (l.drop s).length = l.length - s := by simp
      have h1 : n * s ≤ (l.drop s).length := by omega
      have h2 : (l.drop s).length < (n + 1) * s := by omega
      obtain ⟨ihl, ihm⟩ := ih f (l.drop s) (by omega) h1 h2
      unfold chunkAux
      rw [if_neg hge]
      constructor
      · simp [ihl]
      · intro t ht
        rcases List.mem_cons.mp ht with rfl | ht2
        · simp only [List.length_take]
          omega
        · exact ihm t ht2

/-- Claim C9: with a parsed stride `s ≥ 1` and float text parsing to `len`
floats with `n·s ≤ len < (n+1)·s`, decoding yields exactly `n` tuples of
width `s` (the remainder is discarded); absent text and unparsable tokens
yield the empty sequence (with `n = 0` the first part also covers streams
shorter than one stride). -/
theorem C9_stride_chunking :
    (∀ (src : XSource) (txt : String) (floats : List ℚ) (s n : ℕ),
      src.float_array = some (some txt) →
      mapMOpt parseFloat? (pySplit txt) = some floats →
      strideResult src = .ok (s : Int) → 1 ≤ s →
      n * s ≤ floats.length → floats.length < (n + 1) * s →
      ∃ out, parse_source_float_array src = .ok out ∧ out.length = n ∧
        ∀ t ∈ out, t.length = s) ∧
    (∀ src : XSource, src.float_array = none ∨ src.float_array = some none →
      parse_source_float_array src = .ok []) ∧
    (∀ (src : XSource) (txt : String), src.float_array = some (some txt) →
      mapMOpt parseFloat? (pySplit txt) = none →
      parse_source_float_array src = .ok []) := by
  refine ⟨?_, ?_, ?_⟩
  · intro src txt floats s n hfa hmap hstr hs hlo hup
    have hnz : ¬(s : Int) = 0 := by
      simp only [Int.natCast_eq_zero]
      omega
    have hneg : ¬(s : Int) < 0 := by
      simp
    refine ⟨chunkPos s floats, ?_, ?_⟩
    · unfold parse_source_float_array
      simp only [hfa, hmap, hstr]
      rw [if_neg hnz, if_neg hneg]
      rw [Int.toNat_natCast]
    · have hfuel : n ≤ floats.length := by
        have := Nat.mul_le_mul_left n hs
        omega
      exact chunkAux_spec hs n floats.length floats hfuel hlo hup
  · intro src h
    rcases h with h | h <;> (unfold parse_source_float_array; simp only [h])
  · intro src txt hfa hmap
    unfold parse_source_float_array
    simp only [hfa, hmap]

/-- Claim C9 witness: stride 3 over four floats gives one tuple of width 3;
a short stream (two floats, stride 3) gives the empty output. -/
theorem C9_witness :
    (∃ out, parse_source_float_array ⟨some "p", some (some "1 2 3 4"), some ⟨some "3"⟩⟩ =
      .ok out ∧ out.length = 1 ∧ ∀ t ∈ out, t.length = 3) ∧
    (∃ out, parse_source_float_array ⟨some "p", some (some "1 2"), some ⟨some "3"⟩⟩ =
      .ok out ∧ out.length = 0 ∧ ∀ t ∈ out, t.length = 3) :=
  ⟨C9_stride_chunking.1 ⟨some "p", some (some "1 2 3 4"), some ⟨some "3"⟩⟩
      "1 2 3 4" [1, 2, 3, 4] 3 1 rfl (by rfl) (by rfl) (by decide) (by decide) (by decide),
   C9_stride_chunking.1 ⟨some "p", some (some "1 2"), some ⟨some "3"⟩⟩
      "1 2" [1, 2] 3 0 rfl (by rfl) (by rfl) (by decide) (by decide) (by decide)⟩

/-! ## Claim C7 -/

/-- Claim C7: a triangle whose three VERTEX rows are not pairwise distinct
(`len(set(...)) < 3`) is dropped, contributing no face, material-tag or
corner entries; over any run of the triangle loop the parallel arrays grow
in lockstep (one material tag per face, and 3 corner entries per face for
each channel the block actually carries, none for absent channels); and in
every mesh handed to the sink `|face_mat_ids| = |faces|`. -/
theorem C7_degenerate_drop_alignment :
    (∀ (ctx : BlockCtx) (raw : List Int) (st : TState) (i : ℕ) (td : TriData),
      decodeTriangle ctx raw i = .ok td → td.verts.dedup.length < 3 →
      triStep ctx raw st i = .ok st) ∧
    (∀ (ctx : BlockCtx) (raw : List Int) (idxs : List ℕ) (st st2 : TState),
      idxs.foldlM (triStep ctx raw) st = .ok st2 →
      st2.mats.length + st.faces.length = st.mats.length + st2.faces.length ∧
      (normalActive ctx = true →
        st2.norms.length + 3 * st.faces.length = st.norms.length + 3 * st2.faces.length) ∧
      (normalActive ctx = false → st2.norms = st.norms) ∧
      (colorActive ctx = true →
        st2.cols.length + 3 * st.faces.length = st.cols.length + 3 * st2.faces.length) ∧
      (colorActive ctx = false → st2.cols = st.cols) ∧
      (uvActive ctx = true →
        st2.uvs.length + 3 * st.faces.length = st.uvs.length + 3 * st2.faces.length) ∧
      (uvActive ctx = false → st2.uvs = st.uvs)) ∧
    (∀ (geom : XGeometry) (m : MeshOut), build_mesh_from_geometry geom = .ok (some m) →
      m.face_mat_ids.length = m.faces.length) := by
  refine ⟨?_, ?_, ?_⟩
  · intro ctx raw st i td hd hdeg
    exact triStep_degenerate hd hdeg
  · intro ctx raw idxs st st2 h
    exact triFold_lens idxs st st2 h
  · intro geom m h
    obtain ⟨mesh, srcs, acc, pos, _, _, hpb, _, _, hm⟩ := build_ok_shape h
    have := processBlocks_align hpb (by simp [initAccum])
    rw [hm]
    exact this

/-- Claim C7 witness: the degenerate stream `0 0 2` (two equal VERTEX rows)
leaves the accumulators untouched, and the alignment applied to the run of
`gC8`'s block. -/
theorem C7_witness :
    triStep ⟨1, 0, none, {}⟩ [0, 0, 2] ⟨[], [], [], [], []⟩ 0 =
      .ok ⟨[], [], [], [], []⟩ ∧
    mC8.face_mat_ids.length = mC8.faces.length :=
  ⟨C7_degenerate_drop_alignment.1 ⟨1, 0, none, {}⟩ [0, 0, 2] ⟨[], [], [], [], []⟩ 0
      ⟨[0, 0, 2], [], [], []⟩ (by rfl) (by decide),
   C7_degenerate_drop_alignment.2.2 gC8 mC8 (by rfl)⟩

/-! ## Claim C8 -/

/-- Claim C8: a mesh is handed to the sink only with nonempty positions and
faces (otherwise the geometry is dropped as a decode failure, in particular
whenever the block loop finishes with zero faces), and each corner-attribute
array is written only when populated with length exactly `3 × |faces|` —
otherwise that attribute is absent from the handoff. -/
theorem C8_sink_gating :
    (∀ (geom : XGeometry) (m : MeshOut), build_mesh_from_geometry geom = .ok (some m) →
      ¬m.positions = [] ∧ ¬m.faces = [] ∧
      (∀ u, m.uvsWritten = some u → ¬u = [] ∧ u.length = 3 * m.faces.length) ∧
      (∀ cd, m.colsWritten = some cd → ¬cd = [] ∧ cd.length = 3 * m.faces.length) ∧
      (∀ nd, m.normsWritten = some nd → ¬nd = [] ∧ nd.length = 3 * m.faces.length)) ∧
    (∀ (geom : XGeometry) (mesh : XMesh) (srcs : List (String × SrcTable)) (acc : Accum),
      geom.mesh = some mesh → buildSources mesh.sources = .ok srcs →
      processBlocks srcs (buildVerticesMap mesh.vertices) mesh.triangles initAccum =
        .ok (some acc) →
      acc.ts.faces = [] → build_mesh_from_geometry geom = .ok none) := by
  constructor
  · intro geom m h
    obtain ⟨mesh, srcs, acc, pos, _, _, _, _, hemp, hm⟩ := build_ok_shape h
    have hp : ¬pos = [] := by
      simp only [Bool.or_eq_false_iff, List.isEmpty_eq_false] at hemp
      exact hemp.1
    have hf : ¬acc.ts.faces = [] := by
      simp only [Bool.or_eq_false_iff, List.isEmpty_eq_false] at hemp
      exact hemp.2
    subst hm
    refine ⟨hp, hf, ?_, ?_, ?_⟩ <;> intro x hx <;> simp only [] at hx <;>
      split at hx <;> simp_all
  · intro geom mesh srcs acc hmesh hsrcs hpb hfaces
    unfold build_mesh_from_geometry
    simp only [hmesh, bind, Except.bind, hsrcs, hpb]
    rcases hpos : acc.positions with _ | pos <;> simp [hpos, hfaces, pure, Except.pure]

/-- Claim C8 witness: the gates applied to `gC8`, whose block carries a
TEXCOORD channel — the written uv array has length `3 × |faces| = 3`. -/
theorem C8_witness :
    ¬mC8.positions = [] ∧ ¬mC8.faces = [] ∧
    (∀ u, mC8.uvsWritten = some u → ¬u = [] ∧ u.length = 3 * mC8.faces.length) ∧
    (∀ cd, mC8.colsWritten = some cd → ¬cd = [] ∧ cd.length = 3 * mC8.faces.length) ∧
    (∀ nd, mC8.normsWritten = some nd → ¬nd = [] ∧ nd.length = 3 * mC8.faces.length) :=
  C8_sink_gating.1 gC8 mC8 (by rfl)

/-! ## Claim C10 -/

/-- Claim C10: the VERTEX row index of each corner is emitted into the face
triple exactly as read from the stream, with no range check against the
position table (the triangle loop never consults the table at all): any
non-degenerate decoded triple, whatever its values, is appended unchanged —
and concretely `gC10`'s face cites rows `-1` and `99` of a 3-row table. -/
theorem C10_vertex_index_unchecked :
    (∀ (ctx : BlockCtx) (raw : List Int) (st : TState) (i : ℕ) (td : TriData),
      decodeTriangle ctx raw i = .ok td → ¬td.verts.dedup.length < 3 →
      triStep ctx raw st i =
        .ok ⟨st.faces ++ [td.verts], st.mats ++ [ctx.mat], st.uvs ++ td.uv,
             st.cols ++ td.col, st.norms ++ td.norm⟩) ∧
    (build_mesh_from_geometry gC10 = .ok (some mC10) ∧
      mC10.faces = [[0, -1, 99]] ∧ mC10.positions.length = 3) := by
  constructor
  · intro ctx raw st i td hd hdeg
    unfold triStep
    simp [hd, hdeg, bind, Except.bind, pure, Except.pure]
  · exact ⟨by rfl, rfl, rfl⟩

/-- Claim C10 witness: a triple with a negative and a huge row index is
appended unchanged. -/
theorem C10_witness :
    triStep ⟨1, 0, none, {}⟩ [0, -1, 99] ⟨[], [], [], [], []⟩ 0 =
      .ok ⟨[[0, -1, 99]], [none], [], [], []⟩ :=
  C10_vertex_index_unchecked.1 ⟨1, 0, none, {}⟩ [0, -1, 99] ⟨[], [], [], [], []⟩ 0
    ⟨[0, -1, 99], [], [], []⟩ (by rfl) (by decide)

/-! ## Claim C2 -/

/-- Claim C2 (counterexample): the claim's resolution rules fail on the
code.  (a) NORMAL first-seen: on a block with NORMAL bindings at offsets 1
(`na`) and 2 (`nb`) the resolver ends with offset 2 and `nb`'s table — the
later binding silently overwrote the earlier, different one.  (b) TEXCOORD
`set="0"` preferred over any other: when the `set="0"` binding's source id
is unknown, a later non-`"0"` binding overwrites it (offset 2 wins, not 1).
(c) TEXCOORD first-encountered kept (no `set="0"` present): when the first
binding's source id is unknown, a later binding overwrites it.  (d) a later
`set="0"` binding overrides an earlier `set="0"` binding even when both
resolve. -/
theorem C2_counterexample_resolution_order :
    ((resolveOptional srcsC2 iboC2).normal_offset = some 2 ∧
     (resolveOptional srcsC2 iboC2).normal_source = some [[0, 1, 0]] ∧
     dictGet? "na" srcsC2 = some [[1, 0, 0]] ∧
     ¬([[0, 1, 0]] : SrcTable) = [[1, 0, 0]]) ∧
    ((resolveOptional [("tb", [[2, 2]])]
        [(1, (some "TEXCOORD", "ta", some "0")),
         (2, (some "TEXCOORD", "tb", some "1"))]).uv_offset = some 2 ∧
      ¬(some (2 : Int)) = some 1) ∧
    ((resolveOptional [("tb", [[2, 2]])]
        [(1, (some "TEXCOORD", "ta", none)),
         (2, (some "TEXCOORD", "tb", none))]).uv_offset = some 2) ∧
    ((resolveOptional [("ta", [[1, 1]]), ("tb", [[2, 2]])]
        [(1, (some "TEXCOORD", "ta", some "0")),
         (2, (some "TEXCOORD", "tb", some "0"))]).uv_offset = some 2) := by
  refine ⟨⟨rfl, rfl, rfl, by decide⟩, ⟨rfl, by decide⟩, rfl, rfl⟩

/-- Claim C2 (amended): for NORMAL and COLOR the *last*-seen binding per
semantic (in `input_by_offset` iteration order) wins, later duplicates
silently overwriting earlier ones.  For TEXCOORD the resolver adopts a
binding exactly when it holds no uv source yet (`uv_source is None`) or the
binding has `set="0"`; consequently a `set="0"` binding whose source id is
known wins over any other provided no later `set="0"` binding follows, and
when every earlier TEXCOORD binding's source id is unknown, a binding whose
source id is known wins provided no later `set="0"` binding follows — so
with all source ids known, a unique `set="0"` binding wins and otherwise the
first binding is kept. -/
theorem C2_amended_binding_resolution :
    (∀ (srcs : List (String × SrcTable)) (ibo : List IboEntry),
      (resolveOptional srcs ibo).normal_offset =
        Option.map eOff (lastWithSem "NORMAL" ibo) ∧
      (resolveOptional srcs ibo).normal_source =
        (lastWithSem "NORMAL" ibo).bind (fun e => dictGet? (eSrc e) srcs) ∧
      (resolveOptional srcs ibo).color_offset =
        Option.map eOff (lastWithSem "COLOR" ibo) ∧
      (resolveOptional srcs ibo).color_source =
        (lastWithSem "COLOR" ibo).bind (fun e => dictGet? (eSrc e) srcs)) ∧
    (∀ (srcs : List (String × SrcTable)) (s : OptSem) (e : IboEntry),
      eSem e = some "TEXCOORD" →
      resolveOptStep srcs s e =
        (if s.uv_source = none ∨ eSet e = some "0" then
          { s with uv_offset := some (eOff e), uv_source := dictGet? (eSrc e) srcs }
        else s)) ∧
    (∀ (srcs : List (String × SrcTable)) (l1 l2 : List IboEntry) (e : IboEntry),
      eSem e = some "TEXCOORD" → eSet e = some "0" →
      ¬dictGet? (eSrc e) srcs = none →
      (∀ f ∈ l2, eSem f = some "TEXCOORD" → ¬eSet f = some "0") →
      (resolveOptional srcs (l1 ++ e :: l2)).uv_offset = some (eOff e) ∧
      (resolveOptional srcs (l1 ++ e :: l2)).uv_source = dictGet? (eSrc e) srcs) ∧
    (∀ (srcs : List (String × SrcTable)) (l1 l2 : List IboEntry) (e : IboEntry),
      (∀ f ∈ l1, eSem f = some "TEXCOORD" → dictGet? (eSrc f) srcs = none) →
      eSem e = some "TEXCOORD" →
      ¬dictGet? (eSrc e) srcs = none →
      (∀ f ∈ l2, eSem f = some "TEXCOORD" → ¬eSet f = some "0") →
      (resolveOptional srcs (l1 ++ e :: l2)).uv_offset = some (eOff e) ∧
      (resolveOptional srcs (l1 ++ e :: l2)).uv_source = dictGet? (eSrc e) srcs) := by
  refine ⟨?_, ?_, ?_, ?_⟩
  · intro srcs ibo
    obtain ⟨hno, hns⟩ := foldl_opt_normal ibo ({} : OptSem)
    obtain ⟨hco, hcs⟩ := foldl_opt_color ibo ({} : OptSem)
    unfold resolveOptional
    refine ⟨?_, ?_, ?_, ?_⟩
    · rw [hno]
      rcases lastWithSem "NORMAL" ibo with _ | e <;> simp
    · rw [hns]
      rcases lastWithSem "NORMAL" ibo with _ | e <;> simp
    · rw [hco]
      rcases lastWithSem "COLOR" ibo with _ | e <;> simp
    · rw [hcs]
      rcases lastWithSem "COLOR" ibo with _ | e <;> simp
  · intro srcs s e he
    by_cases hcond : s.uv_source = none ∨ eSet e = some "0"
    · rw [if_pos hcond]
      exact resolveOptStep_uv_take he hcond
    · rw [if_neg hcond]
      push_neg at hcond
      exact resolveOptStep_uv_keep he hcond.1 hcond.2
  · intro srcs l1 l2 e he h0 hres hl2
    unfold resolveOptional
    rw [List.foldl_append, List.foldl_cons]
    rw [resolveOptStep_uv_take he (Or.inr h0)]
    obtain ⟨ho, hs2⟩ := foldl_uv_stable l2
      { List.foldl (resolveOptStep srcs) {} l1 with
          uv_offset := some (eOff e), uv_source := dictGet? (eSrc e) srcs }
      (by simpa using hres) hl2
    rw [ho, hs2]
    exact ⟨rfl, rfl⟩
  · intro srcs l1 l2 e hl1 he hres hl2
    unfold resolveOptional
    rw [List.foldl_append, List.foldl_cons]
    have hnone := foldl_uv_source_none l1 ({} : OptSem) rfl hl1
    rw [resolveOptStep_uv_take he (Or.inl hnone)]
    obtain ⟨ho, hs2⟩ := foldl_uv_stable l2
      { List.foldl (resolveOptStep srcs) {} l1 with
          uv_offset := some (eOff e), uv_source := dictGet? (eSrc e) srcs }
      (by simpa using hres) hl2
    rw [ho, hs2]
    exact ⟨rfl, rfl⟩

/-- Claim C2 witness: the amended resolution at concrete inputs — last
NORMAL wins on `iboC2`; a resolvable `set="0"` TEXCOORD binding at offset 3
beats an earlier TEXCOORD binding; and with no `set="0"` binding present, a
resolvable binding at offset 2 is kept although an unresolvable TEXCOORD
binding precedes it. -/
theorem C2_witness :
    ((resolveOptional srcsC2 iboC2).normal_offset =
        Option.map eOff (lastWithSem "NORMAL" iboC2)) ∧
    ((resolveOptional [("ta", [[1, 1]]), ("tb", [[2, 2]])]
        [(1, (some "VERTEX", "v", none)), (2, (some "TEXCOORD", "ta", some "1")),
         (3, (some "TEXCOORD", "tb", some "0"))]).uv_offset = some 3) ∧
    ((resolveOptional [("tb", [[2, 2]])]
        [(1, (some "TEXCOORD", "ta", none)),
         (2, (some "TEXCOORD", "tb", none))]).uv_offset = some 2) :=
  ⟨(C2_amended_binding_resolution.1 srcsC2 iboC2).1,
   (C2_amended_binding_resolution.2.2.1 [("ta", [[1, 1]]), ("tb", [[2, 2]])]
      [(1, (some "VERTEX", "v", none)), (2, (some "TEXCOORD", "ta", some "1"))] []
      (3, (some "TEXCOORD", "tb", some "0"))
      rfl rfl (by decide) (by intro f hf; cases hf)).1,
   (C2_amended_binding_resolution.2.2.2 [("tb", [[2, 2]])]
      [(1, (some "TEXCOORD", "ta", none))] []
      (2, (some "TEXCOORD", "tb", none))
      (by decide) rfl (by decide) (by intro f hf; cases hf)).1⟩

/-! ## Claim C3 -/

/-- Claim C3 (counterexample): the claim says the sink receives the position
table of the *first* successfully decoded block; on `gC3` (block 1 on pool
`va`/source `pa`, block 2 on pool `vb`/source `pb`) the mesh carries `pb`'s
table, which differs from `pa`'s. -/
theorem C3_counterexample_last_block_positions :
    build_mesh_from_geometry gC3 = .ok (some mC3) ∧
    mC3.positions = [[5, 5, 5], [6, 5, 5], [5, 6, 5]] ∧
    ¬mC3.positions = [[0, 0, 0], [1, 0, 0], [0, 1, 0]] := by
  refine ⟨by rfl, rfl, by decide⟩

/-- Claim C3 (amended): every block that reaches position resolution
*overwrites* the `positions` variable with its own resolved table (so the
table handed to the sink is the last such block's), while a block skipped
for a missing/empty `<p>` leaves the whole accumulator unchanged. -/
theorem C3_amended_positions_overwritten :
    (∀ (srcs : List (String × SrcTable)) (vmap : List (String × String))
       (st : Accum) (tri : XTriangles) (c : Int),
      parseInt? (tri.count.getD "0") = some c →
      (tri.p_text = none ∨ tri.p_text = some "") →
      processTriBlock srcs vmap st tri = .ok (some st)) ∧
    (∀ (srcs : List (String × SrcTable)) (vmap : List (String × String))
       (st st2 : Accum) (tri : XTriangles) (c : Int) (ptxt : String)
       (im : List IboEntry × Int),
      processTriBlock srcs vmap st tri = .ok (some st2) →
      parseInt? (tri.count.getD "0") = some c →
      tri.p_text = some ptxt → ¬ptxt = "" →
      mkInputByOffset tri.inputs = .ok im →
      st2.positions = Option.map Prod.snd (resolveVertexBlock srcs vmap im.1) ∧
      ¬resolveVertexBlock srcs vmap im.1 = none) := by
  constructor
  · intro srcs vmap st tri c hc hp
    exact processTriBlock_skip hc hp
  · intro srcs vmap st st2 tri c ptxt im h hc hp hne him
    obtain ⟨vp, raw, ts2, hv, hraw, hfold, hst2⟩ :=
      processTriBlock_ok_shape h hc hp hne him
    rw [hst2, hv]
    exact ⟨rfl, by simp⟩

/-- Claim C3 witness: the amended theorem applied to a concrete block whose
resolution succeeds — its output state carries exactly that block's resolved
table. -/
theorem C3_witness :
    (⟨some [[0, 0, 0], [1, 0, 0], [0, 1, 0]],
       ⟨[[0, 1, 2]], [none], [], [], []⟩⟩ : Accum).positions =
      Option.map Prod.snd
        (resolveVertexBlock [("pa", [[0, 0, 0], [1, 0, 0], [0, 1, 0]])] [("va", "pa")]
          [(0, (some "VERTEX", "va", none))]) ∧
    ¬resolveVertexBlock [("pa", [[0, 0, 0], [1, 0, 0], [0, 1, 0]])] [("va", "pa")]
        [(0, (some "VERTEX", "va", none))] = none :=
  C3_amended_positions_overwritten.2
    [("pa", [[0, 0, 0], [1, 0, 0], [0, 1, 0]])] [("va", "pa")] initAccum
    ⟨some [[0, 0, 0], [1, 0, 0], [0, 1, 0]], ⟨[[0, 1, 2]], [none], [], [], []⟩⟩
    (triA "1" "0 1 2") 1 "0 1 2" ([(0, (some "VERTEX", "va", none))], 0)
    (by rfl) (by rfl) rfl (by decide) (by rfl)

/-! ## Claim C4 -/

/-- Claim C4 (counterexample): the claim says a block with no VERTEX binding
fails alone, leaving the other blocks' output intact; on `gC4` (a good block
followed by a VERTEX-less block) the importer returns `None` for the whole
geometry, although the good block alone (`gC4only`) yields a one-face
mesh. -/
theorem C4_counterexample_whole_geometry_fails :
    build_mesh_from_geometry gC4 = .ok none ∧
    build_mesh_from_geometry gC4only = .ok (some mC4) ∧
    mC4.faces = [[0, 1, 2]] := ⟨by rfl, by rfl, rfl⟩

/-- Claim C4 (amended): when a non-skipped block has no VERTEX binding, or
its pool reference or position source fails to resolve, or the table is
empty (`resolveVertexBlock` yields `none`), the block returns `None` and the
whole block loop — hence the whole geometry — aborts with `None`, discarding
output accumulated from the geometry's other blocks. -/
theorem C4_amended_block_failure_aborts_geometry :
    ∀ (srcs : List (String × SrcTable)) (vmap : List (String × String))
      (st : Accum) (tri : XTriangles) (c : Int) (ptxt : String)
      (im : List IboEntry × Int) (rest : List XTriangles),
      parseInt? (tri.count.getD "0") = some c →
      tri.p_text = some ptxt → ¬ptxt = "" →
      mkInputByOffset tri.inputs = .ok im →
      resolveVertexBlock srcs vmap im.1 = none →
      processTriBlock srcs vmap st tri = .ok none ∧
      processBlocks srcs vmap (tri :: rest) st = .ok none := by
  intro srcs vmap st tri c ptxt im rest hc hp hne him hv
  have h1 : processTriBlock srcs vmap st tri = .ok none :=
    processTriBlock_fail hc hp hne him hv
  exact ⟨h1, processBlocks_cons_none h1⟩

/-- Claim C4 witness: the amended theorem applied to a VERTEX-less block
sitting after an accumulator that already holds a face — the loop returns
`None`, discarding it. -/
theorem C4_witness :
    processBlocks [] []
      [⟨some "1", none, [⟨some "NORMAL", some "#pa", some "0", none⟩], some "0 0 0"⟩]
      ⟨some [[0, 0, 0]], ⟨[[0, 1, 2]], [none], [], [], []⟩⟩ = .ok none :=
  (C4_amended_block_failure_aborts_geometry [] []
    ⟨some [[0, 0, 0]], ⟨[[0, 1, 2]], [none], [], [], []⟩⟩
    ⟨some "1", none, [⟨some "NORMAL", some "#pa", some "0", none⟩], some "0 0 0"⟩
    1 "0 0 0" ([(0, (some "NORMAL", "pa", none))], 0) []
    (by rfl) rfl (by decide) (by rfl) (by rfl)).2
